import Mathlib

/-!
Shallow embedding of the `langgraph-pydantic-ai-agents` example of the
`context-engineering` repository, covering:

  * `graph/state.py`     — the `ParallelAgentState` TypedDict and its
    reducer annotations (`operator.add` on the four research list fields);
  * `graph/workflow.py`  — the node functions (`guardrail_node`, the three
    research nodes, `synthesis_node`, `fallback_node`), the conditional
    router `route_after_guardrail`, the graph wiring of `create_workflow`,
    and `create_api_initial_state`;
  * `agents/{seo,social,competitor}_research_agent.py` — the `search_web`
    tool's result-count clamp;
  * `api/db_utils.py`    — `check_rate_limit`;
  * `api/endpoints.py`   — the endpoint's pre-workflow action sequence and
    `stream_langgraph_response`.

External LLM calls, web searches and database queries are modelled as
explicit outcome parameters (success value or raised-exception message),
since the Python code only observes their result or catches their
exception.  Each node's `try/except` structure is reproduced by a total
function on such outcomes.
-/

/-- Result of an awaited external call: either a value or a raised
exception carrying its `str(e)` message. -/
inductive Outcome (α : Type) where
  | ok : α → Outcome α
  | err : String → Outcome α
deriving DecidableEq, Repr

/-- Structured output of the guardrail agent
(`GuardrailOutput`: `is_research_request` plus `reasoning`). -/
structure GuardDecision where
  is_research_request : Bool
  reasoning : String
deriving DecidableEq, Repr

/-- `ParallelAgentState` from `graph/state.py`.  `bytes` blobs
(`message_history`) and serialized pydantic messages are kept as opaque
strings. -/
structure ParallelAgentState where
  query : String
  session_id : String
  request_id : String
  is_research_request : Bool
  routing_reason : String
  seo_research : List String
  social_research : List String
  competitor_research : List String
  research_completed : List String
  synthesis_complete : Bool
  final_response : String
  pydantic_message_history : List String
  message_history : List String
  conversation_title : Option String
  is_new_conversation : Bool
deriving DecidableEq, Repr

/-- The partial dict a LangGraph node returns.  `Option` fields are
last-write-wins (plain TypedDict fields); the four `List` fields are the
`Annotated[List[str], operator.add]` fields of `graph/state.py`, merged by
list concatenation. -/
structure NodeUpdate where
  u_is_research_request : Option Bool
  u_routing_reason : Option String
  u_seo_research : List String
  u_social_research : List String
  u_competitor_research : List String
  u_research_completed : List String
  u_synthesis_complete : Option Bool
  u_final_response : Option String
  u_message_history : Option (List String)
deriving DecidableEq, Repr

/-- The empty update (a node that returns `{}`). -/
def emptyUpdate : NodeUpdate :=
  { u_is_research_request := none
    u_routing_reason := none
    u_seo_research := []
    u_social_research := []
    u_competitor_research := []
    u_research_completed := []
    u_synthesis_complete := none
    u_final_response := none
    u_message_history := none }

/-- LangGraph's state merge: plain fields are overwritten when the update
carries them, `operator.add`-annotated list fields are concatenated. -/
def applyUpdate (s : ParallelAgentState) (u : NodeUpdate) : ParallelAgentState :=
  { s with
    is_research_request := u.u_is_research_request.getD s.is_research_request
    routing_reason := u.u_routing_reason.getD s.routing_reason
    seo_research := s.seo_research ++ u.u_seo_research
    social_research := s.social_research ++ u.u_social_research
    competitor_research := s.competitor_research ++ u.u_competitor_research
    research_completed := s.research_completed ++ u.u_research_completed
    synthesis_complete := u.u_synthesis_complete.getD s.synthesis_complete
    final_response := u.u_final_response.getD s.final_response
    message_history := u.u_message_history.getD s.message_history }

/-- `str(run.data) if run.data else "No response generated"` — an empty
(falsy) agent payload is replaced by the placeholder text. -/
def respText (d : String) : String :=
  if d = "" then "No response generated" else d

/-- `guardrail_node` of `graph/workflow.py`: on success it records the
structured decision and reasoning; on any exception it records
`is_research_request = False` and `routing_reason = "Guardrail error: " ++ str(e)`. -/
def guardrail_node (g : Outcome GuardDecision) : NodeUpdate :=
  match g with
  | .ok d =>
      { emptyUpdate with
        u_is_research_request := some d.is_research_request
        u_routing_reason := some d.reasoning }
  | .err e =>
      { emptyUpdate with
        u_is_research_request := some false
        u_routing_reason := some ("Guardrail error: " ++ e) }

/-- `seo_research_node`: appends one entry to `seo_research` and one to
`research_completed` in both the success and the exception branch. -/
def seo_research_node (r : Outcome String) : NodeUpdate :=
  match r with
  | .ok d =>
      { emptyUpdate with
        u_seo_research := [respText d]
        u_research_completed := ["seo"] }
  | .err e =>
      { emptyUpdate with
        u_seo_research := ["SEO Research error: " ++ e]
        u_research_completed := ["seo_error"] }

/-- `social_research_node`, structurally identical to the SEO node. -/
def social_research_node (r : Outcome String) : NodeUpdate :=
  match r with
  | .ok d =>
      { emptyUpdate with
        u_social_research := [respText d]
        u_research_completed := ["social"] }
  | .err e =>
      { emptyUpdate with
        u_social_research := ["Social Research error: " ++ e]
        u_research_completed := ["social_error"] }

/-- `competitor_research_node`, structurally identical to the SEO node. -/
def competitor_research_node (r : Outcome String) : NodeUpdate :=
  match r with
  | .ok d =>
      { emptyUpdate with
        u_competitor_research := [respText d]
        u_research_completed := ["competitor"] }
  | .err e =>
      { emptyUpdate with
        u_competitor_research := ["Competitor Research error: " ++ e]
        u_research_completed := ["competitor_error"] }

/-- `' '.join` on a list of strings. -/
def joinSp : List String → String
  | [] => ""
  | [a] => a
  | a :: b :: rest => a ++ " " ++ joinSp (b :: rest)

/-- `seo_data = ' '.join(state.get("seo_research", []))` in `synthesis_node`. -/
def seo_data (s : ParallelAgentState) : String := joinSp s.seo_research

/-- `social_data` in `synthesis_node`. -/
def social_data (s : ParallelAgentState) : String := joinSp s.social_research

/-- `competitor_data` in `synthesis_node`. -/
def competitor_data (s : ParallelAgentState) : String := joinSp s.competitor_research

/-- Fragment of the `synthesis_prompt` f-string before the interpolated query. -/
def synthesis_prompt_p1 : String :=
  "\n        Create a comprehensive research synthesis based on parallel research findings:\n        \n        Original Request: "

/-- Fragment of the `synthesis_prompt` f-string before the SEO findings. -/
def synthesis_prompt_p2 : String :=
  "\n        \n        SEO Research Findings:\n        "

/-- Fragment of the `synthesis_prompt` f-string before the social findings. -/
def synthesis_prompt_p3 : String :=
  "\n        \n        Social Media Research Findings:\n        "

/-- Fragment of the `synthesis_prompt` f-string before the competitor findings. -/
def synthesis_prompt_p4 : String :=
  "\n        \n        Competitor Research Findings:\n        "

/-- Trailing fragment of the `synthesis_prompt` f-string. -/
def synthesis_prompt_p5 : String :=
  "\n        \n        Please synthesize all research findings and create a comprehensive analysis that:\n        1. Integrates insights from all three research streams into a coherent narrative\n        2. Highlights key patterns and connections across different data sources\n        3. Provides strategic insights and actionable intelligence\n        4. Identifies strengths, weaknesses, opportunities, and threats\n        5. Delivers clear, data-backed conclusions\n        \n        Structure your synthesis with clear sections and actionable insights.\n        "

/-- The `synthesis_prompt` f-string built in `synthesis_node`
(`graph/workflow.py`): the fixed fragments above interpolated with the
query and the three joined research buffers. -/
def synthesis_prompt (s : ParallelAgentState) : String :=
  synthesis_prompt_p1 ++ s.query ++ synthesis_prompt_p2 ++ seo_data s
    ++ synthesis_prompt_p3 ++ social_data s ++ synthesis_prompt_p4
    ++ competitor_data s ++ synthesis_prompt_p5

/-- How the synthesis agent call behaved: streaming succeeded yielding a
token list and captured messages; streaming failed and the non-streaming
fallback call succeeded; the fallback call also raised (caught by the outer
`except`); or something else in the outer `try` raised. -/
inductive SynthesisRun where
  | streamOk (tokens : List String) (newMessages : String)
  | streamFailFallbackOk (streamErr : String) (data : String) (newMessages : String)
  | streamFailFallbackErr (streamErr : String) (e : String)
  | outerErr (e : String)
deriving DecidableEq, Repr

/-- The `full_response` (or outer error text) `synthesis_node` ends up with. -/
def synthesis_full_response : SynthesisRun → String
  | .streamOk tokens _ => String.join tokens
  | .streamFailFallbackOk _ d _ => respText d
  | .streamFailFallbackErr _ e => "Synthesis error: " ++ e
  | .outerErr e => "Synthesis error: " ++ e

/-- `synthesis_node`'s returned update: on any path inside the outer `try`
it reports `synthesis_complete = True` with the captured messages; the
outer `except` reports `synthesis_complete = False` and the error text as
the final response. -/
def synthesis_node (r : SynthesisRun) : NodeUpdate :=
  match r with
  | .streamOk tokens nm =>
      { emptyUpdate with
        u_final_response := some (String.join tokens)
        u_synthesis_complete := some true
        u_message_history := some [nm] }
  | .streamFailFallbackOk _ d nm =>
      { emptyUpdate with
        u_final_response := some (respText d)
        u_synthesis_complete := some true
        u_message_history := some [nm] }
  | .streamFailFallbackErr _ e =>
      { emptyUpdate with
        u_final_response := some ("Synthesis error: " ++ e)
        u_synthesis_complete := some false
        u_message_history := some [] }
  | .outerErr e =>
      { emptyUpdate with
        u_final_response := some ("Synthesis error: " ++ e)
        u_synthesis_complete := some false
        u_message_history := some [] }

/-- How the fallback agent call behaved (same structure as synthesis:
inner streaming `try` with a non-streaming fallback, outer `except`). -/
inductive FallbackRun where
  | streamOk (tokens : List String) (newMessages : String)
  | streamFailFallbackOk (streamErr : String) (data : String) (newMessages : String)
  | streamFailFallbackErr (streamErr : String) (e : String)
  | outerErr (e : String)
deriving DecidableEq, Repr

/-- The `full_response` (or outer error text) `fallback_node` ends up with. -/
def fallback_full_response : FallbackRun → String
  | .streamOk tokens _ => String.join tokens
  | .streamFailFallbackOk _ d _ => respText d
  | .streamFailFallbackErr _ e => "Fallback error: " ++ e
  | .outerErr e => "Fallback error: " ++ e

/-- `fallback_node`'s returned update. -/
def fallback_node (r : FallbackRun) : NodeUpdate :=
  match r with
  | .streamOk tokens nm =>
      { emptyUpdate with
        u_final_response := some (String.join tokens)
        u_message_history := some [nm] }
  | .streamFailFallbackOk _ d nm =>
      { emptyUpdate with
        u_final_response := some (respText d)
        u_message_history := some [nm] }
  | .streamFailFallbackErr _ e =>
      { emptyUpdate with
        u_final_response := some ("Fallback error: " ++ e)
        u_message_history := some [] }
  | .outerErr e =>
      { emptyUpdate with
        u_final_response := some ("Fallback error: " ++ e)
        u_message_history := some [] }

/-- Python's `route_after_guardrail` returns either a list of node names
(fan-out) or a single node name. -/
inductive RouteResult where
  | nodes (names : List String)
  | single (name : String)
deriving DecidableEq, Repr

/-- `route_after_guardrail` of `graph/workflow.py`: a pure function of
`state.get("is_research_request", False)`. -/
def route_after_guardrail (s : ParallelAgentState) : RouteResult :=
  if s.is_research_request then
    .nodes ["seo_research_node", "social_research_node", "competitor_research_node"]
  else
    .single "fallback_node"

/-- `create_api_initial_state` of `graph/workflow.py`. -/
def create_api_initial_state (query session_id request_id : String)
    (pydantic_message_history : List String) : ParallelAgentState :=
  { query := query
    session_id := session_id
    request_id := request_id
    is_research_request := false
    routing_reason := ""
    seo_research := []
    social_research := []
    competitor_research := []
    research_completed := []
    synthesis_complete := false
    final_response := ""
    pydantic_message_history := pydantic_message_history
    message_history := []
    conversation_title := none
    is_new_conversation := false }

/-- Behaviour of every external call one workflow run can make, so that a
run of the compiled graph is a deterministic function of it. -/
structure WorkflowEnv where
  guardrail : Outcome GuardDecision
  seo : Outcome String
  social : Outcome String
  competitor : Outcome String
  synthesis : SynthesisRun
  fallback : FallbackRun
deriving Repr

/-- The update computed by the routed node of the given name (the names
admissible per `create_workflow`'s conditional-edge list). -/
def runNodeByName (env : WorkflowEnv) (name : String) : NodeUpdate :=
  if name = "seo_research_node" then seo_research_node env.seo
  else if name = "social_research_node" then social_research_node env.social
  else if name = "competitor_research_node" then competitor_research_node env.competitor
  else if name = "fallback_node" then fallback_node env.fallback
  else emptyUpdate

/-- Static successors per `create_workflow`'s `add_edge` calls: each of the
three research nodes feeds `synthesis_node`; `synthesis_node` and
`fallback_node` feed `END`. -/
def successors (name : String) : List String :=
  if name = "seo_research_node" then ["synthesis_node"]
  else if name = "social_research_node" then ["synthesis_node"]
  else if name = "competitor_research_node" then ["synthesis_node"]
  else []

/-- One full run of the compiled graph, recording the intermediate points
the claims talk about. -/
structure RunTrace where
  state_after_guardrail : ParallelAgentState
  ran_workers : List String
  state_at_synthesis : Option ParallelAgentState
  synthesis_input : Option String
  final : ParallelAgentState
deriving Repr

/-- Execution of the compiled graph (`create_workflow`) following
LangGraph's superstep semantics on this fixed topology: the guardrail runs
first; the conditional edge activates the routed node set, all of which run
in one superstep and have their updates merged by the reducers; only after
every routed node has reported does the shared successor `synthesis_node`
run (the fan-in join of the framework); `fallback_node` has no successor. -/
def runWorkflow (env : WorkflowEnv) (init : ParallelAgentState) : RunTrace :=
  let s1 := applyUpdate init (guardrail_node env.guardrail)
  let targets :=
    match route_after_guardrail s1 with
    | .nodes names => names
    | .single name => [name]
  let s2 := targets.foldl (fun st n => applyUpdate st (runNodeByName env n)) s1
  if (targets.flatMap successors).contains "synthesis_node" then
    { state_after_guardrail := s1
      ran_workers := targets
      state_at_synthesis := some s2
      synthesis_input := some (synthesis_prompt s2)
      final := applyUpdate s2 (synthesis_node env.synthesis) }
  else
    { state_after_guardrail := s1
      ran_workers := targets.filter (fun n => n ≠ "fallback_node")
      state_at_synthesis := none
      synthesis_input := none
      final := s2 }

/-!
`search_web` tool of the three research agents
(`agents/seo_research_agent.py`, `agents/social_research_agent.py`,
`agents/competitor_research_agent.py`): each clamps its `max_results`
argument with `min(max(max_results, 1), 10)` before passing it as `count`
to `search_web_tool`.  Python integers are unbounded, so `Int`.
-/

/-- The `count` the SEO agent's `search_web` passes to `search_web_tool`. -/
def seo_search_web_count (max_results : Int) : Int :=
  min (max max_results 1) 10

/-- The `count` the Social agent's `search_web` passes to `search_web_tool`. -/
def social_search_web_count (max_results : Int) : Int :=
  min (max max_results 1) 10

/-- The `count` the Competitor agent's `search_web` passes to `search_web_tool`. -/
def competitor_search_web_count (max_results : Int) : Int :=
  min (max max_results 1) 10

/-!
`check_rate_limit` of `api/db_utils.py`.  The Supabase count query is
modelled two ways: `check_rate_limit` takes the query's outcome directly
(the `except` branch returns `True`; a response without a `count`
attribute counts as `0`), and `check_rate_limit_db` runs the query against
an explicit requests table, with timestamps in whole seconds — the code
compares `timestamp >= strftime(now - 1 minute)` at second granularity.
-/

/-- One row of the `requests` table (timestamp in whole seconds since the
epoch, matching the second-granularity cutoff string the query compares
against). -/
structure RequestRow where
  user_id : String
  timestamp : Nat
deriving DecidableEq, Repr

/-- Outcome of the Supabase count query inside `check_rate_limit`: an
exception, or a response whose `count` attribute is present or absent. -/
inductive CountQueryResult where
  | ok (count : Option Nat)
  | err (e : String)
deriving DecidableEq, Repr

/-- The default of the `rate_limit` parameter of `check_rate_limit`. -/
def rate_limit_default : Nat := 5

/-- `check_rate_limit(supabase, user_id, rate_limit)`: on query error it
returns `True` (fail open); otherwise `request_count < rate_limit`, where a
missing `count` attribute reads as `0`. -/
def check_rate_limit (q : CountQueryResult) (rate_limit : Nat) : Bool :=
  match q with
  | .err _ => true
  | .ok c => (c.getD 0) < rate_limit

/-- The count the query computes: rows of this user with
`timestamp >= one_minute_ago` (i.e. within the rolling one-minute window). -/
def matching_request_count (table : List RequestRow) (user_id : String) (now : Nat) : Nat :=
  (table.filter (fun r => r.user_id = user_id ∧ now - 60 ≤ r.timestamp)).length

/-- `check_rate_limit` when the query succeeds against the table. -/
def check_rate_limit_db (table : List RequestRow) (user_id : String) (now : Nat)
    (rate_limit : Nat) : Bool :=
  check_rate_limit (.ok (some (matching_request_count table user_id now))) rate_limit

/-!
`langgraph_routing_agents_endpoint` of `api/endpoints.py`: the order of
externally visible actions taken before the streaming response starts.
-/

/-- Externally visible steps of the endpoint body, in program order. -/
inductive ApiAction where
  | errorStream (msg : String)
  | rateLimitCheck
  | startRequestTracking
  | createConversation
  | storeUserMessage
  | fetchHistory
  | startWorkflowStream
deriving DecidableEq, Repr

/-- The error text of the identity-mismatch stream. -/
def identity_mismatch_msg : String :=
  "User ID in request does not match authenticated user"

/-- The error text of the rate-limit stream. -/
def rate_limited_msg : String :=
  "Rate limit exceeded. Please try again later."

/-- The endpoint's pre-streaming action sequence: the identity check
(`request.user_id != user.get("id")`) runs first and returns an error
stream on mismatch; then the rate-limit check (error stream when it
returns false); then request tracking starts, a conversation is created
when `session_id` is empty, the user message is stored, history fetched,
and the workflow streaming response returned. -/
def endpoint_actions (request_user_id auth_user_id session_id : String)
    (rate_ok : Bool) : List ApiAction :=
  if request_user_id ≠ auth_user_id then
    [.errorStream identity_mismatch_msg]
  else if rate_ok = false then
    [.rateLimitCheck, .errorStream rate_limited_msg]
  else
    [.rateLimitCheck, .startRequestTracking]
      ++ (if session_id = "" then [.createConversation] else [])
      ++ [.storeUserMessage, .fetchHistory, .startWorkflowStream]

/-!
`stream_langgraph_response` of `api/endpoints.py`.  The workflow's
`astream(..., stream_mode=["custom", "values"])` iterator is modelled as
the list of events it yielded plus an optional exception message raised
after them (`WorkflowStream.raised`); the generator's output is the list
of emitted chunks.
-/

/-- One event from `workflow.astream`: a `custom` chunk written by a
node's `writer` (a string, or bytes that do or do not decode as UTF-8), or
a `values` snapshot of the state. -/
inductive StreamEvent where
  | custom (s : String)
  | customBytesDecodable (s : String)
  | customBytesRaw (bs : List Nat)
  | values (st : ParallelAgentState)
deriving DecidableEq, Repr

/-- One chunk yielded to the HTTP client: a `{"text": ...}` JSON line, raw
undecodable bytes passed through, or the final metadata JSON line
(`session_id`, `conversation_title`, `complete`, `request_id`,
`final_response`, `routing_decision`). -/
inductive Chunk where
  | text (s : String)
  | raw (bs : List Nat)
  | finalMeta (session_id : String) (conversation_title : String) (complete : Bool)
      (request_id : String) (final_response : String) (routing_decision : String)
deriving DecidableEq, Repr

/-- Result of folding the event loop of `stream_langgraph_response`:
chunks yielded so far, the accumulated `full_response`, and the last
`values` snapshot (`final_state`). -/
structure StreamFold where
  chunks : List Chunk
  full_response : String
  final_state : Option ParallelAgentState
deriving Repr

/-- The `async for` loop over `workflow.astream`: every decoded custom
chunk is appended to `full_response` and re-emitted as
`{"text": full_response}` (the accumulated text), undecodable bytes are
yielded as-is, and each `values` event replaces `final_state`. -/
def processEvents : List StreamEvent → String → Option ParallelAgentState → StreamFold
  | [], acc, fs => { chunks := [], full_response := acc, final_state := fs }
  | .custom c :: rest, acc, fs =>
      let r := processEvents rest (acc ++ c) fs
      { r with chunks := .text (acc ++ c) :: r.chunks }
  | .customBytesDecodable c :: rest, acc, fs =>
      let r := processEvents rest (acc ++ c) fs
      { r with chunks := .text (acc ++ c) :: r.chunks }
  | .customBytesRaw bs :: rest, acc, fs =>
      let r := processEvents rest acc fs
      { r with chunks := .raw bs :: r.chunks }
  | .values st :: rest, acc, _ =>
      processEvents rest acc (some st)

/-- The upstream iterator: the events it yielded, and `some msg` when it
raised (with `str(e) = msg`) after yielding them. -/
structure WorkflowStream where
  events : List StreamEvent
  raised : Option String
deriving Repr

/-- `final_state.get("routing_decision", "unknown") if final_state else
"unknown"`.  `ParallelAgentState` (`graph/state.py`) has no
`routing_decision` key and no node of `graph/workflow.py` writes one (the
guardrail writes `is_research_request` and `routing_reason`), so the
lookup always falls back to the `"unknown"` default. -/
def routing_decision_lookup (fs : Option ParallelAgentState) : String :=
  match fs with
  | some _ => "unknown"
  | none => "unknown"

/-- Await of the title task plus the `update_conversation_title` write:
`none` when no title task was started (the session already existed), and
otherwise the outcome of awaiting it and storing the title. -/
def TitleTask : Type := Option (Outcome String)

/-- `stream_langgraph_response`: when the upstream iterator raises, the
outer `except` yields a single `{"text": "Streaming error: " ++ str(e)}`
chunk after the chunks already sent, and nothing else (the final-chunk
code is inside the same `try`).  When it completes, the database write is
attempted (its failure is caught and yields nothing), and only when a
title task exists and awaiting/storing it succeeds is the final metadata
chunk with `complete = true` yielded. -/
def stream_langgraph_response (ws : WorkflowStream) (session_id request_id : String)
    (title_task : TitleTask) : List Chunk :=
  let r := processEvents ws.events "" none
  match ws.raised with
  | some e => r.chunks ++ [.text ("Streaming error: " ++ e)]
  | none =>
      match title_task with
      | some (.ok title) =>
          r.chunks ++ [.finalMeta session_id title true request_id r.full_response
            (routing_decision_lookup r.final_state)]
      | some (.err _) => r.chunks
      | none => r.chunks

/-- The texts of the `{"text": ...}` chunks of a chunk sequence. -/
def textsOf (l : List Chunk) : List String :=
  l.filterMap (fun c =>
    match c with
    | .text s => some s
    | _ => none)

/-- `a` is a prefix of `b` (on the underlying character lists). -/
def strIsPrefixOf (a b : String) : Bool :=
  a.data.isPrefixOf b.data

/-- Each element of the list extends the previous one, the first extending
`base`. -/
def appendOnlyFrom (base : String) : List String → Bool
  | [] => true
  | t :: rest => strIsPrefixOf base t && appendOnlyFrom t rest

/-- The list is an append-only chain: every element has the previous one
as a prefix. -/
def appendOnly (l : List String) : Bool :=
  appendOnlyFrom "" l

/-- Does any chunk of the stream carry `complete = true`? -/
def hasCompleteChunk (l : List Chunk) : Bool :=
  l.any (fun c =>
    match c with
    | .finalMeta _ _ complete _ _ _ => complete
    | _ => false)

/-- `small` occurs as a contiguous substring of `big`. -/
def containsSub (big small : String) : Prop :=
  ∃ a b, big = a ++ small ++ b

/-! ### Helper lemmas -/

/-- A character list is a Boolean prefix of itself followed by anything. -/
theorem list_isPrefixOf_append (la lb : List Char) : la.isPrefixOf (la ++ lb) = true := by
  induction la with
  | nil => simp [List.isPrefixOf]
  | cons c rest ih => simp [List.isPrefixOf, ih]

/-- `a` is a prefix of `a ++ b`. -/
theorem strIsPrefixOf_append (a b : String) : strIsPrefixOf a (a ++ b) = true := by
  obtain ⟨la⟩ := a
  obtain ⟨lb⟩ := b
  show (la.isPrefixOf (la ++ lb)) = true
  exact list_isPrefixOf_append la lb

/-- String concatenation is associative. -/
theorem str_append_assoc (a b c : String) : a ++ b ++ c = a ++ (b ++ c) := by
  obtain ⟨la⟩ := a
  obtain ⟨lb⟩ := b
  obtain ⟨lc⟩ := c
  show String.mk (la ++ lb ++ lc) = String.mk (la ++ (lb ++ lc))
  rw [List.append_assoc]

/-- Characterization of a run whose guardrail classified the request as
research: the three workers run in one superstep on the post-guardrail
state, their updates merge, and `synthesis_node` runs on the merged state. -/
theorem runWorkflow_research (env : WorkflowEnv) (init : ParallelAgentState) (reason : String)
    (h : env.guardrail = .ok ⟨true, reason⟩) :
    runWorkflow env init =
      { state_after_guardrail := applyUpdate init (guardrail_node env.guardrail)
        ran_workers := ["seo_research_node", "social_research_node", "competitor_research_node"]
        state_at_synthesis := some (applyUpdate (applyUpdate (applyUpdate
          (applyUpdate init (guardrail_node env.guardrail))
          (seo_research_node env.seo)) (social_research_node env.social))
          (competitor_research_node env.competitor))
        synthesis_input := some (synthesis_prompt (applyUpdate (applyUpdate (applyUpdate
          (applyUpdate init (guardrail_node env.guardrail))
          (seo_research_node env.seo)) (social_research_node env.social))
          (competitor_research_node env.competitor)))
        final := applyUpdate (applyUpdate (applyUpdate (applyUpdate
          (applyUpdate init (guardrail_node env.guardrail))
          (seo_research_node env.seo)) (social_research_node env.social))
          (competitor_research_node env.competitor)) (synthesis_node env.synthesis) } := by
  have hs1 : (applyUpdate init (guardrail_node env.guardrail)).is_research_request = true := by
    simp [applyUpdate, h, guardrail_node]
  simp only [runWorkflow, route_after_guardrail, hs1, if_true]
  simp [runNodeByName, successors]

/-- Characterization of a run whose post-guardrail state says
"not research": only `fallback_node` runs, `synthesis_node` never does. -/
theorem runWorkflow_not_research (env : WorkflowEnv) (init : ParallelAgentState)
    (h : (applyUpdate init (guardrail_node env.guardrail)).is_research_request = false) :
    runWorkflow env init =
      { state_after_guardrail := applyUpdate init (guardrail_node env.guardrail)
        ran_workers := []
        state_at_synthesis := none
        synthesis_input := none
        final := applyUpdate (applyUpdate init (guardrail_node env.guardrail))
          (fallback_node env.fallback) } := by
  simp only [runWorkflow, route_after_guardrail, h, if_false, Bool.false_eq_true]
  simp [runNodeByName, successors]

/-- The final response a `fallback_node` update carries. -/
theorem fallback_node_final_response (r : FallbackRun) :
    (fallback_node r).u_final_response = some (fallback_full_response r) := by
  cases r <;> rfl

/-- The final response a `synthesis_node` update carries. -/
theorem synthesis_node_final_response (r : SynthesisRun) :
    (synthesis_node r).u_final_response = some (synthesis_full_response r) := by
  cases r <;> rfl

/-! ### Claim theorems -/

/-- C3: for every `search_web` call of the three research agents and every
requested `max_results`, the count passed to the underlying search request
lies in `[1, 10]`: values below 1 are raised to 1, values above 10 lowered
to 10, and values already in `[1, 10]` pass unchanged; the three agents
clamp identically. -/
theorem c3_search_web_count_clamped (m : Int) :
    1 ≤ seo_search_web_count m ∧ seo_search_web_count m ≤ 10
    ∧ seo_search_web_count m = social_search_web_count m
    ∧ seo_search_web_count m = competitor_search_web_count m
    ∧ (m < 1 → seo_search_web_count m = 1)
    ∧ (10 < m → seo_search_web_count m = 10)
    ∧ (1 ≤ m → m ≤ 10 → seo_search_web_count m = m) := by
  unfold seo_search_web_count social_search_web_count competitor_search_web_count
  omega

/-- Witness for C3 at the spec's example inputs: 20 yields 10, 0 yields 1,
-1 yields 1. -/
theorem c3_search_web_count_clamped_witness :
    seo_search_web_count 20 = 10 ∧ seo_search_web_count 0 = 1
      ∧ seo_search_web_count (-1) = 1 :=
  ⟨(c3_search_web_count_clamped 20).2.2.2.2.2.1 (by norm_num),
   (c3_search_web_count_clamped 0).2.2.2.2.1 (by norm_num),
   (c3_search_web_count_clamped (-1)).2.2.2.2.1 (by norm_num)⟩

/-- C8: if the persistence query inside the rate-limit check raises, the
check returns `True` — it fails open, allowing the request. -/
theorem c8_rate_limit_fails_open (e : String) (rate_limit : Nat) :
    check_rate_limit (.err e) rate_limit = true := rfl

/-- C10: with the default limit of 5, `check_rate_limit` allows a request
iff strictly fewer than 5 of the user's stored requests fall within the
rolling one-minute window; with 4 stored in the window the next (fifth)
request is still allowed, and from 5 on requests are rejected. -/
theorem c10_rate_limit_window (table : List RequestRow) (user_id : String) (now : Nat) :
    (check_rate_limit_db table user_id now rate_limit_default = true
      ↔ matching_request_count table user_id now < 5)
    ∧ (matching_request_count table user_id now = 4 →
        check_rate_limit_db table user_id now rate_limit_default = true)
    ∧ (5 ≤ matching_request_count table user_id now →
        check_rate_limit_db table user_id now rate_limit_default = false) := by
  refine ⟨?_, ?_, ?_⟩
  · simp [check_rate_limit_db, check_rate_limit, rate_limit_default]
  · intro h4
    simp [check_rate_limit_db, check_rate_limit, rate_limit_default, h4]
  · intro h5
    simp only [check_rate_limit_db, check_rate_limit, rate_limit_default, Option.getD_some,
      decide_eq_false_iff_not, Nat.not_lt]
    exact h5

/-- Witness for C10: a user with exactly 4 requests in the window is still
allowed. -/
theorem c10_rate_limit_window_witness :
    matching_request_count
        [⟨"u", 100⟩, ⟨"u", 90⟩, ⟨"u", 80⟩, ⟨"u", 70⟩, ⟨"v", 95⟩, ⟨"u", 30⟩] "u" 100 = 4
    ∧ check_rate_limit_db
        [⟨"u", 100⟩, ⟨"u", 90⟩, ⟨"u", 80⟩, ⟨"u", 70⟩, ⟨"v", 95⟩, ⟨"u", 30⟩] "u" 100
        rate_limit_default = true :=
  ⟨by decide,
   (c10_rate_limit_window
      [⟨"u", 100⟩, ⟨"u", 90⟩, ⟨"u", 80⟩, ⟨"u", 70⟩, ⟨"v", 95⟩, ⟨"u", 30⟩] "u" 100).2.1
    (by decide)⟩

/-- C9: when the request body's `user_id` differs from the authenticated
user's id, the endpoint returns only the identity-mismatch error stream:
no rate-limit check, no request tracking, no conversation creation, no
message store, no history fetch, and no workflow streaming happen. -/
theorem c9_identity_mismatch_rejected (request_user_id auth_user_id session_id : String)
    (rate_ok : Bool) (h : request_user_id ≠ auth_user_id) :
    endpoint_actions request_user_id auth_user_id session_id rate_ok
        = [.errorStream identity_mismatch_msg]
    ∧ ApiAction.rateLimitCheck ∉ endpoint_actions request_user_id auth_user_id session_id rate_ok
    ∧ ApiAction.startRequestTracking ∉ endpoint_actions request_user_id auth_user_id session_id rate_ok
    ∧ ApiAction.createConversation ∉ endpoint_actions request_user_id auth_user_id session_id rate_ok
    ∧ ApiAction.storeUserMessage ∉ endpoint_actions request_user_id auth_user_id session_id rate_ok
    ∧ ApiAction.fetchHistory ∉ endpoint_actions request_user_id auth_user_id session_id rate_ok
    ∧ ApiAction.startWorkflowStream ∉ endpoint_actions request_user_id auth_user_id session_id rate_ok := by
  simp [endpoint_actions, h]

/-- Witness for C9 at a concrete mismatched pair. -/
theorem c9_identity_mismatch_rejected_witness :
    endpoint_actions "alice" "bob" "sess" true = [.errorStream identity_mismatch_msg]
    ∧ ApiAction.startWorkflowStream ∉ endpoint_actions "alice" "bob" "sess" true :=
  ⟨(c9_identity_mismatch_rejected "alice" "bob" "sess" true (by decide)).1,
   (c9_identity_mismatch_rejected "alice" "bob" "sess" true (by decide)).2.2.2.2.2.2⟩

/-- C7: if the guardrail agent call raises, `guardrail_node` catches it
and returns `is_research_request = False` with the failure reason recorded
as the routing reason; the run then proceeds through the fallback path and
still produces a final response — it never aborts. -/
theorem c7_guardrail_fail_safe (e q session_id request_id : String) (hist : List String)
    (env : WorkflowEnv) (h : env.guardrail = .err e) :
    (guardrail_node env.guardrail).u_is_research_request = some false
    ∧ (guardrail_node env.guardrail).u_routing_reason = some ("Guardrail error: " ++ e)
    ∧ (runWorkflow env (create_api_initial_state q session_id request_id hist)).state_after_guardrail.is_research_request = false
    ∧ (runWorkflow env (create_api_initial_state q session_id request_id hist)).state_after_guardrail.routing_reason = "Guardrail error: " ++ e
    ∧ (runWorkflow env (create_api_initial_state q session_id request_id hist)).final.final_response
        = fallback_full_response env.fallback := by
  have hng : (applyUpdate (create_api_initial_state q session_id request_id hist)
      (guardrail_node env.guardrail)).is_research_request = false := by
    simp [applyUpdate, h, guardrail_node]
  refine ⟨by simp [h, guardrail_node], by simp [h, guardrail_node], ?_, ?_, ?_⟩
  · rw [runWorkflow_not_research env _ hng]
    exact hng
  · rw [runWorkflow_not_research env _ hng]
    simp [applyUpdate, h, guardrail_node]
  · rw [runWorkflow_not_research env _ hng]
    simp [applyUpdate, fallback_node_final_response]

/-- Witness for C7 at a concrete run whose guardrail call raised. -/
theorem c7_guardrail_fail_safe_witness :
    (runWorkflow ⟨.err "timeout", .ok "a", .ok "b", .ok "c", .streamOk ["x"] "m",
        .streamOk ["hello"] "m"⟩
      (create_api_initial_state "q" "s" "r" [])).final.final_response
        = fallback_full_response (.streamOk ["hello"] "m") :=
  (c7_guardrail_fail_safe "timeout" "q" "s" "r" []
    ⟨.err "timeout", .ok "a", .ok "b", .ok "c", .streamOk ["x"] "m", .streamOk ["hello"] "m"⟩
    rfl).2.2.2.2

/-- `fallback_node` never touches the four research list fields. -/
theorem fallback_node_research_fields (r : FallbackRun) :
    (fallback_node r).u_seo_research = [] ∧ (fallback_node r).u_social_research = []
    ∧ (fallback_node r).u_competitor_research = []
    ∧ (fallback_node r).u_research_completed = [] := by
  cases r <;> exact ⟨rfl, rfl, rfl, rfl⟩

/-- `guardrail_node` never touches the four research list fields. -/
theorem guardrail_node_research_fields (g : Outcome GuardDecision) :
    (guardrail_node g).u_seo_research = [] ∧ (guardrail_node g).u_social_research = []
    ∧ (guardrail_node g).u_competitor_research = []
    ∧ (guardrail_node g).u_research_completed = [] := by
  cases g <;> exact ⟨rfl, rfl, rfl, rfl⟩

/-- Each research node reports completion exactly once, success or error. -/
theorem seo_research_node_completed (r : Outcome String) :
    (seo_research_node r).u_research_completed = ["seo"]
    ∨ (seo_research_node r).u_research_completed = ["seo_error"] := by
  cases r with
  | ok d => exact .inl rfl
  | err e => exact .inr rfl

/-- Each research node reports completion exactly once, success or error. -/
theorem social_research_node_completed (r : Outcome String) :
    (social_research_node r).u_research_completed = ["social"]
    ∨ (social_research_node r).u_research_completed = ["social_error"] := by
  cases r with
  | ok d => exact .inl rfl
  | err e => exact .inr rfl

/-- Each research node reports completion exactly once, success or error. -/
theorem competitor_research_node_completed (r : Outcome String) :
    (competitor_research_node r).u_research_completed = ["competitor"]
    ∨ (competitor_research_node r).u_research_completed = ["competitor_error"] := by
  cases r with
  | ok d => exact .inl rfl
  | err e => exact .inr rfl

/-- C4: `route_after_guardrail` is a pure function of the routing decision
in the state — the three research nodes when `is_research_request` is
true, the fallback node alone otherwise; consequently a run classified as
not-research invokes no research worker, leaves every research field
empty, skips synthesis, and its final response is exactly the fallback
responder's. -/
theorem c4_route_after_guardrail_pure (s : ParallelAgentState)
    (q session_id request_id reason : String) (hist : List String) (env : WorkflowEnv)
    (h : env.guardrail = .ok ⟨false, reason⟩) :
    (s.is_research_request = true →
      route_after_guardrail s
        = .nodes ["seo_research_node", "social_research_node", "competitor_research_node"])
    ∧ (s.is_research_request = false →
      route_after_guardrail s = .single "fallback_node")
    ∧ (runWorkflow env (create_api_initial_state q session_id request_id hist)).ran_workers = []
    ∧ (runWorkflow env (create_api_initial_state q session_id request_id hist)).state_at_synthesis = none
    ∧ (runWorkflow env (create_api_initial_state q session_id request_id hist)).final.seo_research = []
    ∧ (runWorkflow env (create_api_initial_state q session_id request_id hist)).final.social_research = []
    ∧ (runWorkflow env (create_api_initial_state q session_id request_id hist)).final.competitor_research = []
    ∧ (runWorkflow env (create_api_initial_state q session_id request_id hist)).final.research_completed = []
    ∧ (runWorkflow env (create_api_initial_state q session_id request_id hist)).final.final_response
        = fallback_full_response env.fallback := by
  have hng : (applyUpdate (create_api_initial_state q session_id request_id hist)
      (guardrail_node env.guardrail)).is_research_request = false := by
    simp [applyUpdate, h, guardrail_node]
  rw [runWorkflow_not_research env _ hng]
  refine ⟨?_, ?_, rfl, rfl, ?_, ?_, ?_, ?_, ?_⟩
  · intro ht
    simp [route_after_guardrail, ht]
  · intro hf
    simp [route_after_guardrail, hf]
  · simp [applyUpdate, create_api_initial_state,
      (guardrail_node_research_fields env.guardrail).1,
      (fallback_node_research_fields env.fallback).1]
  · simp [applyUpdate, create_api_initial_state,
      (guardrail_node_research_fields env.guardrail).2.1,
      (fallback_node_research_fields env.fallback).2.1]
  · simp [applyUpdate, create_api_initial_state,
      (guardrail_node_research_fields env.guardrail).2.2.1,
      (fallback_node_research_fields env.fallback).2.2.1]
  · simp [applyUpdate, create_api_initial_state,
      (guardrail_node_research_fields env.guardrail).2.2.2,
      (fallback_node_research_fields env.fallback).2.2.2]
  · simp [applyUpdate, fallback_node_final_response]

/-- Witness for C4 at a concrete not-research run. -/
theorem c4_route_after_guardrail_pure_witness :
    (runWorkflow ⟨.ok ⟨false, "chat"⟩, .ok "a", .ok "b", .ok "c", .streamOk ["x"] "m",
        .streamOk ["hi"] "m"⟩
      (create_api_initial_state "q" "s" "r" [])).final.final_response
        = fallback_full_response (.streamOk ["hi"] "m")
    ∧ route_after_guardrail (create_api_initial_state "q" "s" "r" [])
        = .single "fallback_node" :=
  ⟨(c4_route_after_guardrail_pure (create_api_initial_state "q" "s" "r" [])
      "q" "s" "r" "chat" []
      ⟨.ok ⟨false, "chat"⟩, .ok "a", .ok "b", .ok "c", .streamOk ["x"] "m", .streamOk ["hi"] "m"⟩
      rfl).2.2.2.2.2.2.2.2,
   (c4_route_after_guardrail_pure (create_api_initial_state "q" "s" "r" [])
      "q" "s" "r" "chat" []
      ⟨.ok ⟨false, "chat"⟩, .ok "a", .ok "b", .ok "c", .streamOk ["x"] "m", .streamOk ["hi"] "m"⟩
      rfl).2.1 rfl⟩

/-- C1: when the guardrail classifies the request as research, the
synthesis node receives a state in which all three workers have reported:
its `research_completed` list has exactly 3 entries, one per worker,
tagged either success or error. -/
theorem c1_join_barrier (q session_id request_id reason : String) (hist : List String)
    (env : WorkflowEnv) (h : env.guardrail = .ok ⟨true, reason⟩) :
    ∃ s, (runWorkflow env (create_api_initial_state q session_id request_id hist)).state_at_synthesis = some s
      ∧ s.research_completed.length = 3
      ∧ ("seo" ∈ s.research_completed ∨ "seo_error" ∈ s.research_completed)
      ∧ ("social" ∈ s.research_completed ∨ "social_error" ∈ s.research_completed)
      ∧ ("competitor" ∈ s.research_completed ∨ "competitor_error" ∈ s.research_completed) := by
  rw [runWorkflow_research env _ reason h]
  refine ⟨_, rfl, ?_, ?_, ?_, ?_⟩ <;>
    simp only [applyUpdate, create_api_initial_state,
      (guardrail_node_research_fields env.guardrail).2.2.2, List.nil_append,
      List.append_assoc, List.length_append, List.mem_append]
  · rcases seo_research_node_completed env.seo with h1 | h1 <;>
      rcases social_research_node_completed env.social with h2 | h2 <;>
      rcases competitor_research_node_completed env.competitor with h3 | h3 <;>
      simp [h1, h2, h3]
  · rcases seo_research_node_completed env.seo with h1 | h1 <;> simp [h1]
  · rcases social_research_node_completed env.social with h2 | h2 <;> simp [h2]
  · rcases competitor_research_node_completed env.competitor with h3 | h3 <;> simp [h3]

/-- Witness for C1 at a concrete research run with one failing worker. -/
theorem c1_join_barrier_witness :
    ∃ s, (runWorkflow ⟨.ok ⟨true, "research"⟩, .ok "a", .err "boom", .ok "c",
          .streamOk ["x"] "m", .streamOk ["y"] "m"⟩
        (create_api_initial_state "q" "s" "r" [])).state_at_synthesis = some s
      ∧ s.research_completed.length = 3
      ∧ ("seo" ∈ s.research_completed ∨ "seo_error" ∈ s.research_completed)
      ∧ ("social" ∈ s.research_completed ∨ "social_error" ∈ s.research_completed)
      ∧ ("competitor" ∈ s.research_completed ∨ "competitor_error" ∈ s.research_completed) :=
  c1_join_barrier "q" "s" "r" "research" []
    ⟨.ok ⟨true, "research"⟩, .ok "a", .err "boom", .ok "c", .streamOk ["x"] "m",
      .streamOk ["y"] "m"⟩ rfl

/-- The SEO node writes only its own research field. -/
theorem seo_research_node_other_fields (r : Outcome String) :
    (seo_research_node r).u_social_research = []
    ∧ (seo_research_node r).u_competitor_research = [] := by
  cases r <;> exact ⟨rfl, rfl⟩

/-- The Social node writes only its own research field. -/
theorem social_research_node_other_fields (r : Outcome String) :
    (social_research_node r).u_seo_research = []
    ∧ (social_research_node r).u_competitor_research = [] := by
  cases r <;> exact ⟨rfl, rfl⟩

/-- The Competitor node writes only its own research field. -/
theorem competitor_research_node_other_fields (r : Outcome String) :
    (competitor_research_node r).u_seo_research = []
    ∧ (competitor_research_node r).u_social_research = [] := by
  cases r <;> exact ⟨rfl, rfl⟩

/-- C2: a worker exception is caught inside its own node: the failed
worker's field holds exactly one entry beginning with its error marker and
its completion entry is error-tagged, while every successful worker's
result is still present verbatim inside the synthesis input, and the run
still ends with the synthesis node's response — the exception reaches
neither the coordinator nor the other workers. -/
theorem c2_worker_error_isolated (q session_id request_id reason : String)
    (hist : List String) (env : WorkflowEnv) (h : env.guardrail = .ok ⟨true, reason⟩) :
    ∃ s, (runWorkflow env (create_api_initial_state q session_id request_id hist)).state_at_synthesis = some s
      ∧ (runWorkflow env (create_api_initial_state q session_id request_id hist)).synthesis_input
          = some (synthesis_prompt s)
      ∧ (∀ e, env.seo = .err e → s.seo_research = ["SEO Research error: " ++ e]
          ∧ (∀ t ∈ s.seo_research, strIsPrefixOf "SEO Research error: " t = true)
          ∧ "seo_error" ∈ s.research_completed)
      ∧ (∀ e, env.social = .err e → s.social_research = ["Social Research error: " ++ e]
          ∧ (∀ t ∈ s.social_research, strIsPrefixOf "Social Research error: " t = true)
          ∧ "social_error" ∈ s.research_completed)
      ∧ (∀ e, env.competitor = .err e → s.competitor_research = ["Competitor Research error: " ++ e]
          ∧ (∀ t ∈ s.competitor_research, strIsPrefixOf "Competitor Research error: " t = true)
          ∧ "competitor_error" ∈ s.research_completed)
      ∧ (∀ d, env.seo = .ok d → s.seo_research = [respText d]
          ∧ containsSub (synthesis_prompt s) (respText d))
      ∧ (∀ d, env.social = .ok d → s.social_research = [respText d]
          ∧ containsSub (synthesis_prompt s) (respText d))
      ∧ (∀ d, env.competitor = .ok d → s.competitor_research = [respText d]
          ∧ containsSub (synthesis_prompt s) (respText d))
      ∧ (runWorkflow env (create_api_initial_state q session_id request_id hist)).final.final_response
          = synthesis_full_response env.synthesis := by
  rw [runWorkflow_research env _ reason h]
  have hgl := guardrail_node_research_fields env.guardrail
  have hseoL := seo_research_node_other_fields env.seo
  have hsocL := social_research_node_other_fields env.social
  have hcomL := competitor_research_node_other_fields env.competitor
  set S := applyUpdate (applyUpdate (applyUpdate
      (applyUpdate (create_api_initial_state q session_id request_id hist)
        (guardrail_node env.guardrail)) (seo_research_node env.seo))
      (social_research_node env.social)) (competitor_research_node env.competitor) with hS
  have hseo : S.seo_research = (seo_research_node env.seo).u_seo_research := by
    rw [hS]
    simp [applyUpdate, create_api_initial_state, hgl.1, hsocL.1, hcomL.1]
  have hsoc : S.social_research = (social_research_node env.social).u_social_research := by
    rw [hS]
    simp [applyUpdate, create_api_initial_state, hgl.2.1, hseoL.1, hcomL.2]
  have hcom : S.competitor_research = (competitor_research_node env.competitor).u_competitor_research := by
    rw [hS]
    simp [applyUpdate, create_api_initial_state, hgl.2.2.1, hseoL.2, hsocL.2]
  have hrc : S.research_completed
      = (seo_research_node env.seo).u_research_completed
        ++ (social_research_node env.social).u_research_completed
        ++ (competitor_research_node env.competitor).u_research_completed := by
    rw [hS]
    simp [applyUpdate, create_api_initial_state, hgl.2.2.2]
  refine ⟨S, rfl, rfl, ?_, ?_, ?_, ?_, ?_, ?_, ?_⟩
  · intro e he
    rw [he] at hseo hrc
    refine ⟨hseo.trans rfl, ?_, ?_⟩
    · intro t ht
      rw [hseo] at ht
      simp only [seo_research_node, List.mem_singleton] at ht
      rw [ht]
      exact strIsPrefixOf_append _ _
    · rw [hrc]
      simp [seo_research_node]
  · intro e he
    rw [he] at hsoc hrc
    refine ⟨hsoc.trans rfl, ?_, ?_⟩
    · intro t ht
      rw [hsoc] at ht
      simp only [social_research_node, List.mem_singleton] at ht
      rw [ht]
      exact strIsPrefixOf_append _ _
    · rw [hrc]
      simp [social_research_node]
  · intro e he
    rw [he] at hcom hrc
    refine ⟨hcom.trans rfl, ?_, ?_⟩
    · intro t ht
      rw [hcom] at ht
      simp only [competitor_research_node, List.mem_singleton] at ht
      rw [ht]
      exact strIsPrefixOf_append _ _
    · rw [hrc]
      simp [competitor_research_node]
  · intro d hd
    rw [hd] at hseo
    have h1 : S.seo_research = [respText d] := hseo.trans rfl
    have hsd : seo_data S = respText d := by
      unfold seo_data
      rw [h1]
      rfl
    refine ⟨h1, synthesis_prompt_p1 ++ S.query ++ synthesis_prompt_p2,
      synthesis_prompt_p3 ++ social_data S ++ synthesis_prompt_p4
        ++ competitor_data S ++ synthesis_prompt_p5, ?_⟩
    simp only [synthesis_prompt, hsd, str_append_assoc]
  · intro d hd
    rw [hd] at hsoc
    have h1 : S.social_research = [respText d] := hsoc.trans rfl
    have hsd : social_data S = respText d := by
      unfold social_data
      rw [h1]
      rfl
    refine ⟨h1, synthesis_prompt_p1 ++ S.query ++ synthesis_prompt_p2 ++ seo_data S
        ++ synthesis_prompt_p3,
      synthesis_prompt_p4 ++ competitor_data S ++ synthesis_prompt_p5, ?_⟩
    simp only [synthesis_prompt, hsd, str_append_assoc]
  · intro d hd
    rw [hd] at hcom
    have h1 : S.competitor_research = [respText d] := hcom.trans rfl
    have hsd : competitor_data S = respText d := by
      unfold competitor_data
      rw [h1]
      rfl
    refine ⟨h1, synthesis_prompt_p1 ++ S.query ++ synthesis_prompt_p2 ++ seo_data S
        ++ synthesis_prompt_p3 ++ social_data S ++ synthesis_prompt_p4,
      synthesis_prompt_p5, ?_⟩
    simp only [synthesis_prompt, hsd, str_append_assoc]
  · rw [hS]
    simp [applyUpdate, synthesis_node_final_response]

/-- Witness for C2: a concrete research run where exactly the SEO worker
raised and the other two workers' findings still reach the synthesis
prompt. -/
theorem c2_worker_error_isolated_witness :
    ∃ s, (runWorkflow ⟨.ok ⟨true, "r"⟩, .err "boom", .ok "social findings",
          .ok "competitor findings", .streamOk ["x"] "m", .streamOk ["y"] "m"⟩
        (create_api_initial_state "q" "s" "r" [])).state_at_synthesis = some s
      ∧ s.seo_research = ["SEO Research error: " ++ "boom"]
      ∧ "seo_error" ∈ s.research_completed
      ∧ containsSub (synthesis_prompt s) (respText "social findings")
      ∧ containsSub (synthesis_prompt s) (respText "competitor findings") := by
  obtain ⟨s, h1, _, herr, _, _, _, hok2, hok3, _⟩ :=
    c2_worker_error_isolated "q" "s" "r" "r" []
      ⟨.ok ⟨true, "r"⟩, .err "boom", .ok "social findings", .ok "competitor findings",
        .streamOk ["x"] "m", .streamOk ["y"] "m"⟩ rfl
  exact ⟨s, h1, (herr "boom" rfl).1, (herr "boom" rfl).2.2,
    (hok2 "social findings" rfl).2, (hok3 "competitor findings" rfl).2⟩

/-- The texts emitted while folding the event loop form an append-only
chain extending the accumulator the fold started from. -/
theorem processEvents_appendOnlyFrom (events : List StreamEvent) (acc : String)
    (fs : Option ParallelAgentState) :
    appendOnlyFrom acc (textsOf (processEvents events acc fs).chunks) = true := by
  induction events generalizing acc fs with
  | nil => rfl
  | cons ev rest ih =>
    cases ev with
    | custom c =>
        simp only [processEvents, textsOf, List.filterMap_cons, appendOnlyFrom,
          strIsPrefixOf_append, Bool.true_and]
        exact ih (acc ++ c) fs
    | customBytesDecodable c =>
        simp only [processEvents, textsOf, List.filterMap_cons, appendOnlyFrom,
          strIsPrefixOf_append, Bool.true_and]
        exact ih (acc ++ c) fs
    | customBytesRaw bs =>
        simp only [processEvents, textsOf, List.filterMap_cons]
        exact ih acc fs
    | values st =>
        simp only [processEvents]
        exact ih acc (some st)

/-- Appending the final metadata chunk adds no `text` chunk. -/
theorem textsOf_append_finalMeta (l : List Chunk) (a b d e f : String) (c : Bool) :
    textsOf (l ++ [.finalMeta a b c d e f]) = textsOf l := by
  simp [textsOf]

/-- C5 (amended): as long as the upstream workflow iterator does not
raise, the `text` chunks emitted by `stream_langgraph_response` are
append-only — each successive accumulated text has the previous one as a
prefix.  (As stated over every request the claim fails: the terminal
`Streaming error` chunk emitted when the workflow raises replaces, rather
than extends, the accumulated text.) -/
theorem c5_append_only_without_error (ws : WorkflowStream) (session_id request_id : String)
    (title_task : TitleTask) (h : ws.raised = none) :
    appendOnly (textsOf (stream_langgraph_response ws session_id request_id title_task)) = true := by
  cases title_task with
  | none =>
      simp only [stream_langgraph_response, h]
      exact processEvents_appendOnlyFrom ws.events "" none
  | some o =>
      cases o with
      | ok title =>
          simp only [stream_langgraph_response, h, textsOf_append_finalMeta]
          exact processEvents_appendOnlyFrom ws.events "" none
      | err e =>
          simp only [stream_langgraph_response, h]
          exact processEvents_appendOnlyFrom ws.events "" none

/-- Witness for C5 at a concrete non-raising stream. -/
theorem c5_append_only_without_error_witness :
    appendOnly (textsOf (stream_langgraph_response
      { events := [.custom "Hel", .custom "lo"], raised := none } "s" "r" none)) = true :=
  c5_append_only_without_error
    { events := [.custom "Hel", .custom "lo"], raised := none } "s" "r" none rfl

/-- C5 counterexample: when the workflow raises after one custom chunk,
the terminal error chunk is itself a `text` chunk whose text does not
extend the previously sent accumulated text, so the emitted `text` chunk
sequence of this request is not append-only. -/
theorem c5_counterexample_not_append_only :
    appendOnly (textsOf (stream_langgraph_response
      { events := [.custom "Hello"], raised := some "boom" } "s" "r" none)) = false := by
  decide

/-- C6 (amended): the `routing_decision` of the final chunk is always the
constant `"unknown"` (the workflow state has no `routing_decision` key);
the `complete = true` final chunk — carrying the accumulated full text —
is delivered when the upstream did not raise AND a conversation-title task
exists and succeeds; and when the upstream raised partway, a terminal
`Streaming error` text chunk is still emitted.  (As stated over every
request the claim fails: without a title task no `complete = true` chunk
is ever emitted.) -/
theorem c6_final_chunk_delivery (ws : WorkflowStream) (session_id request_id title : String)
    (title_task : TitleTask) :
    (∀ fs, routing_decision_lookup fs = "unknown")
    ∧ (ws.raised = none → title_task = some (.ok title) →
        ∃ pre, stream_langgraph_response ws session_id request_id title_task
          = pre ++ [Chunk.finalMeta session_id title true request_id
              (processEvents ws.events "" none).full_response
              (routing_decision_lookup (processEvents ws.events "" none).final_state)])
    ∧ (∀ e, ws.raised = some e →
        ∃ pre, stream_langgraph_response ws session_id request_id title_task
          = pre ++ [Chunk.text ("Streaming error: " ++ e)]) := by
  refine ⟨?_, ?_, ?_⟩
  · intro fs
    cases fs <;> rfl
  · intro h1 h2
    subst h2
    simp only [stream_langgraph_response, h1]
    exact ⟨_, rfl⟩
  · intro e he
    simp only [stream_langgraph_response, he]
    exact ⟨_, rfl⟩

/-- Witness for C6: a new-conversation request gets its final metadata
chunk, and a raising request still gets a terminal error chunk. -/
theorem c6_final_chunk_delivery_witness :
    (∃ pre, stream_langgraph_response { events := [.custom "Hi"], raised := none }
        "s" "r" (some (.ok "Title"))
      = pre ++ [Chunk.finalMeta "s" "Title" true "r"
          (processEvents [.custom "Hi"] "" none).full_response
          (routing_decision_lookup (processEvents [.custom "Hi"] "" none).final_state)])
    ∧ (∃ pre, stream_langgraph_response { events := [.custom "Hi"], raised := some "boom" }
        "s" "r" none
      = pre ++ [Chunk.text ("Streaming error: " ++ "boom")]) :=
  ⟨(c6_final_chunk_delivery { events := [.custom "Hi"], raised := none } "s" "r" "Title"
      (some (.ok "Title"))).2.1 rfl rfl,
   (c6_final_chunk_delivery { events := [.custom "Hi"], raised := some "boom" } "s" "r" "Title"
      none).2.2 "boom" rfl⟩

/-- C6 counterexample: a request on an existing conversation (no title
task) whose workflow completes normally ends its stream without any
`complete = true` chunk. -/
theorem c6_counterexample_no_final_chunk :
    hasCompleteChunk (stream_langgraph_response
      { events := [.custom "Hi"], raised := none } "s" "r" none) = false := by
  decide
